import Mathlib

/-!
Verification of the flight-simulator physics core (`src/physics.c`).

The C code is shallowly embedded: C `float` arithmetic is modelled by real
arithmetic, structs become Lean structures, and functions that mutate their
arguments through pointers are modelled as functions returning the updated
value.  The global frame cache `globalPhysicsData` is threaded explicitly as a
`PhysicsData` value.  Logging macros (`CHECK_ALT_LIMIT`, `CHECK_SPEED_LIMIT`,
`CHECK_THROTTLE_LIMIT`) only emit warnings in C and are no-ops here; the
`CHECK_VAR` NaN guards cannot fire over the reals and are likewise no-ops.
The `CHECK_PTR` null guards are modelled separately with `Option` where a
claim is about them.
-/

noncomputable section

namespace FlightSim

open Real

/- ## Constants (physics.h and top of physics.c) -/

/-- `#define GRAVITY 9.81f` (physics.h). -/
def GRAVITY : ℝ := 9.81

/-- `#define PI 3.14159265358979323846f` (physics.h): the code uses this literal, not the exact pi. -/
def PI : ℝ := 3.14159265358979323846

/-- `#define C_D0 0.02f` (physics.h). -/
def C_D0 : ℝ := 0.02

/-- `#define OEF 0.8f` (physics.h), Oswald efficiency factor. -/
def OEF : ℝ := 0.8

/-- `const float airDensityAtSeaLevel = 1.225f` (physics.c). -/
def airDensityAtSeaLevel : ℝ := 1.225

/-- `const float T0 = 288.15f` (physics.c), sea-level temperature in kelvin. -/
def T0 : ℝ := 288.15

/-- `const float rhoTop = 0.3639f` (physics.c), air density at the tropopause. -/
def rhoTop : ℝ := 0.3639

/-- `const float T_trop = 216.65f` (physics.c), temperature at the tropopause. -/
def T_trop : ℝ := 216.65

/-- `const float gammaHeats = 1.4f` (physics.c), ratio of specific heats for air. -/
def gammaHeats : ℝ := 1.4

/-- `const float R = 287.05f` (physics.c), specific gas constant for dry air. -/
def R : ℝ := 287.05

/-- `const float Kt = -0.0065f` (physics.c), temperature lapse rate in the troposphere. -/
def Kt : ℝ := -0.0065

/-- `#define M_DRAG_COEFFICIENT 0.8f` (physics.c line 67), arcade tuning factor. -/
def M_DRAG_COEFFICIENT : ℝ := 0.8

/-- `const float P0 = 101325.0f` (physics.c), sea-level pressure. -/
def P0 : ℝ := 101325

/- Wind model constants (weather.c). -/

/-- `static const float BASE_WIND_SPEED = 2.0f` (weather.c). -/
def BASE_WIND_SPEED : ℝ := 2.0

/-- `static const float ALTITUDE_FACTOR = 0.001f` (weather.c). -/
def ALTITUDE_FACTOR : ℝ := 0.001

/-- `static const float TURBULENCE_AMPLITUDE = 2.0f` (weather.c). -/
def TURBULENCE_AMPLITUDE : ℝ := 2.0

/-- `static const float TURBULENCE_FREQUENCY = 0.5f` (weather.c). -/
def TURBULENCE_FREQUENCY : ℝ := 0.5

/- ## Data model (physics.h, aircraft.h, controls.h, aircraftData.h) -/

/-- 3D vector struct `Vector3` (physics.h). -/
@[ext] structure Vector3 where
  x : ℝ
  y : ℝ
  z : ℝ

/-- Longitudinal axis vector struct `LAV` (physics.h). -/
structure LAV where
  lx : ℝ
  ly : ℝ
  lz : ℝ

/-- Control-input struct `AircraftControls` (controls.h). -/
structure AircraftControls where
  throttle : ℝ
  afterburner : Bool
  yaw : ℝ
  pitch : ℝ
  roll : ℝ
  yawRate : ℝ
  pitchRate : ℝ
  rollRate : ℝ

/-- Mutable aircraft state struct `AircraftState` (aircraft.h; the variant with
the fuel and currentMass fields that physics.c reads and writes). -/
structure AircraftState where
  x : ℝ
  y : ℝ
  z : ℝ
  vx : ℝ
  vy : ℝ
  vz : ℝ
  yaw : ℝ
  pitch : ℝ
  roll : ℝ
  AoA : ℝ
  thrust : ℝ
  hasAfterburner : Bool
  fuel : ℝ
  currentMass : ℝ
  controls : AircraftControls

/-- Immutable per-type data struct `AircraftData` (aircraftData.h), including the
drag-divergence tuning constants `alpha`, `kw`, `Md` that `fillConstants` copies
into the globals used by the drag-coefficient functions. `int` fields stay `ℤ`. -/
structure AircraftData where
  mass : ℝ
  wingArea : ℝ
  wingSpan : ℝ
  aspectRatio : ℝ
  sweepAngle : ℝ
  thrust : ℤ
  afterburnerThrust : ℤ
  maxSpeed : ℝ
  stallSpeed : ℝ
  serviceCeiling : ℤ
  fuelCapacity : ℤ
  cd0 : ℝ
  maxAoA : ℝ
  fuelBurn : ℝ
  afterburnerFuelBurn : ℝ
  alpha : ℝ
  kw : ℝ
  Md : ℝ

/-- Frame-cache struct `PhysicsData` (physics.h). -/
structure PhysicsData where
  tropopauseAltitude : ℝ
  airDensity : ℝ
  temperatureKelvin : ℝ
  speedOfSound : ℝ
  pressure : ℝ
  flightPathAngle : ℝ
  liftCoefficient : ℝ
  aspectRatio : ℝ
  dragCoefficient : ℝ
  parasiticDrag : ℝ
  inducedDrag : ℝ
  totalDrag : ℝ
  dragDivergence : ℝ
  thrust : ℝ
  trueAirspeed : ℝ
  machNumber : ℝ
  angleOfAttack : ℝ
  windVector : Vector3
  upVector : Vector3
  rightWingDirection : Vector3
  liftAxisVector : Vector3
  liftForce : Vector3
  dragForce : Vector3
  pitchDegrees : ℝ
  yawDegrees : ℝ
  rollDegrees : ℝ
  velocityMagnitude : ℝ
  lastSimulationTime : ℝ

/- ## Atmosphere model -/

/-- `getTropopause` (physics.c): `11000 + 1000 * (deltaT_isa / 6.5)` with `deltaT_isa = 0`. -/
def getTropopause : ℝ :=
  11000 + 1000 * (0 / 6.5)

/-- `getTemperatureKelvin` (physics.c): constant `216.65` above the tropopause,
linear lapse `T0 - 6.5 * alt / 1000` below. -/
def getTemperatureKelvin (altitudeMeters : ℝ) (physicsData : PhysicsData) : ℝ :=
  if altitudeMeters > physicsData.tropopauseAltitude then 216.65
  else T0 - 6.5 * altitudeMeters / 1000

/-- `getAirDensity` (physics.c): below the tropopause
`rho0 * (T/T0)^(-(g/(Kt*R)) - 1)` using the cached temperature; above it an
isothermal exponential from `rhoTop`. -/
def getAirDensity (altitude : ℝ) (physicsData : PhysicsData) : ℝ :=
  if altitude ≤ physicsData.tropopauseAltitude then
    airDensityAtSeaLevel * (physicsData.temperatureKelvin / T0) ^ (-(GRAVITY / (Kt * R)) - 1 : ℝ)
  else
    rhoTop * Real.exp (-(GRAVITY / (R * T_trop)) * (altitude - physicsData.tropopauseAltitude))

/-- `calculateSpeedOfSound` (physics.c): `sqrt(gamma*R*T)` above the tropopause,
`340.29 * sqrt(T/T0)` below. -/
def calculateSpeedOfSound (altitude : ℝ) (physicsData : PhysicsData) : ℝ :=
  if altitude > physicsData.tropopauseAltitude then
    Real.sqrt (gammaHeats * R * physicsData.temperatureKelvin)
  else
    340.29 * Real.sqrt (physicsData.temperatureKelvin / T0)

/- ## AoA, flight path angle, lift -/

/-- `calculateAoA` (physics.c lines 196-210): when `vx < 1e-6` returns `90` for
`vz > 0` and `-90` otherwise; else `atan(vz/vx)`. -/
def calculateAoA (aircraft : AircraftState) : ℝ :=
  if aircraft.vx < 1e-6 then
    (if aircraft.vz > 0 then 90 else -90)
  else
    Real.arctan (aircraft.vz / aircraft.vx)

/-- `getFlightPathAngle` (physics.c lines 220-236): the ratio `vy/TAS` is clamped
to `[-1, 1]` and then passed to `asin`. -/
def getFlightPathAngle (aircraft : AircraftState) (physicsData : PhysicsData) : ℝ :=
  let TAS := physicsData.trueAirspeed
  let ratio := aircraft.vy / TAS
  let clamped := if ratio > 1 then 1 else if ratio < -1 then -1 else ratio
  Real.arcsin clamped

/-- `calculateLiftCoefficient` (physics.c): `(mass*g)/(0.5*rho*TAS^2*S)` with the
turn/climb branch adjustments. -/
def calculateLiftCoefficient (mass : ℝ) (aircraft : AircraftState) (wingArea : ℝ)
    (physicsData : PhysicsData) : ℝ :=
  let airDensity := physicsData.airDensity
  let TAS := physicsData.trueAirspeed
  let numerator := mass * GRAVITY
  let denumerator := 0.5 * airDensity * TAS ^ 2 * wingArea
  if |physicsData.yawDegrees| > 5.0 ∧ |physicsData.pitchDegrees| > 0.1 then
    numerator / (denumerator * Real.cos physicsData.rollDegrees)
  else
    if |aircraft.vy| < 1e-6 then numerator / denumerator
    else (numerator * Real.cos physicsData.flightPathAngle) / denumerator

/-- `calculateLift` (physics.c): `0.5 * rho * V^2 * S * C_L` with `V` the true airspeed. -/
def calculateLift (wingArea : ℝ) (physicsData : PhysicsData) : ℝ :=
  0.5 * physicsData.airDensity * physicsData.trueAirspeed * physicsData.trueAirspeed *
    wingArea * physicsData.liftCoefficient

/- ## Vector helpers -/

/-- `calculateMagnitude` (physics.c). -/
def calculateMagnitude (x y z : ℝ) : ℝ :=
  Real.sqrt (x * x + y * y + z * z)

/-- `vectorCross` (physics.c). -/
def vectorCross (a b : Vector3) : Vector3 :=
  ⟨a.y * b.z - a.z * b.y, a.z * b.x - a.x * b.z, a.x * b.y - a.y * b.x⟩

/-- `getUnitVector` (physics.c): velocity direction, zero fallback below magnitude `0.0001`. -/
def getUnitVector (aircraft : AircraftState) (physicsData : PhysicsData) : Vector3 :=
  let magnitude := physicsData.velocityMagnitude
  if magnitude < 0.0001 then ⟨0, 0, 0⟩
  else ⟨aircraft.vx / magnitude, aircraft.vy / magnitude, aircraft.vz / magnitude⟩

/-- `rotateAroundVector` (physics.c): the code's Rodrigues-style rotation, embedded as written. -/
def rotateAroundVector (V K : Vector3) (theta : ℝ) : Vector3 :=
  let cross := vectorCross K V
  let dot := V.x * K.x + V.y * K.y + V.z * K.z
  ⟨V.x * Real.cos theta + cross.x * Real.sin theta + K.x * dot * (1 - Real.cos theta),
   V.y * Real.cos theta + cross.y * Real.sin theta + K.y * dot * (1 - Real.cos theta),
   V.z * Real.cos theta + cross.z * Real.sin theta + K.z * dot * (1 - Real.cos theta)⟩

/-- `getRightWingDirection` (physics.c). -/
def getRightWingDirection (aircraft : AircraftState) (physicsData : PhysicsData) : Vector3 :=
  let wingRight : Vector3 := ⟨Real.cos aircraft.yaw, 0, -Real.sin aircraft.yaw⟩
  let Vunit := getUnitVector aircraft physicsData
  rotateAroundVector wingRight Vunit aircraft.roll

/-- `getLiftAxisVector` (physics.c): normalized cross product, zero fallback below `0.0001`. -/
def getLiftAxisVector (wingRight unitVector : Vector3) : Vector3 :=
  let liftAxisVector := vectorCross wingRight unitVector
  let magnitude := calculateMagnitude liftAxisVector.x liftAxisVector.y liftAxisVector.z
  if magnitude < 0.0001 then ⟨0, 0, 0⟩
  else ⟨liftAxisVector.x / magnitude, liftAxisVector.y / magnitude, liftAxisVector.z / magnitude⟩

/-- `getUpVector` (physics.c). -/
def getUpVector (aircraft : AircraftState) : Vector3 :=
  let cosYaw := Real.cos aircraft.yaw
  let sinYaw := Real.sin aircraft.yaw
  let cosPitch := Real.cos aircraft.pitch
  let sinPitch := Real.sin aircraft.pitch
  let cosRoll := Real.cos aircraft.roll
  let sinRoll := Real.sin aircraft.roll
  ⟨-cosYaw * sinRoll - sinYaw * sinPitch * cosRoll,
   cosPitch * cosRoll,
   -sinYaw * sinRoll + cosYaw * sinPitch * cosRoll⟩

/-- `computeLiftForceComponents` (physics.c): lift direction via double cross
product with fallbacks, magnitude `0.5*rho*V^2*S*C_L`. -/
def computeLiftForceComponents (aircraft : AircraftState) (wingArea coefficientLift : ℝ)
    (physicsData : PhysicsData) : Vector3 :=
  let TAS := physicsData.trueAirspeed
  let velocity : Vector3 :=
    ⟨TAS * Real.cos aircraft.yaw * Real.cos aircraft.pitch,
     TAS * Real.sin aircraft.pitch,
     TAS * Real.cos aircraft.pitch * Real.sin aircraft.yaw⟩
  let airSpeed := calculateMagnitude velocity.x velocity.y velocity.z
  let up := physicsData.upVector
  let cross0 := vectorCross velocity up
  let cross1 := if calculateMagnitude cross0.x cross0.y cross0.z < 1e-6 then
      (⟨0, 0, 1⟩ : Vector3) else cross0
  let liftDir0 := vectorCross cross1 velocity
  let liftDirMag := calculateMagnitude liftDir0.x liftDir0.y liftDir0.z
  let liftDir := if liftDirMag < 1e-6 then (⟨0, 1, 0⟩ : Vector3)
    else ⟨liftDir0.x / liftDirMag, liftDir0.y / liftDirMag, liftDir0.z / liftDirMag⟩
  let airDensity := physicsData.airDensity
  let liftForceMagnitude := 0.5 * airDensity * airSpeed * airSpeed * wingArea * coefficientLift
  ⟨liftDir.x * liftForceMagnitude, liftDir.y * liftForceMagnitude, liftDir.z * liftForceMagnitude⟩

/- ## Drag -/

/-- `calculateAspectRatio` (physics.c). -/
def calculateAspectRatio (wingspan wingArea : ℝ) : ℝ :=
  if wingArea < 1e-6 then 0 else wingspan * wingspan / wingArea

/-- `calculateDragCoefficient` (physics.c): three Mach regimes; the globals
`alpha`, `kw`, `Md` (filled from `AircraftData` by `fillConstants`) are explicit
parameters here. -/
def calculateDragCoefficient (speed maxSpeed C_d0 : ℝ) (physicsData : PhysicsData)
    (alpha kw Md : ℝ) : ℝ :=
  let mach := speed / physicsData.speedOfSound
  if mach < 0.8 then C_d0 + 0.05 * (speed / maxSpeed) ^ 2
  else if mach < 1.2 then C_d0 + 0.05 * (speed / maxSpeed) ^ 2 + alpha * (mach - 1) ^ 2
  else C_d0 + kw * (mach - Md) ^ 2

/-- `calculateParasiticDrag` (physics.c lines 458-467): note the additional
arcade factor `M_DRAG_COEFFICIENT = 0.8` applied to `0.5*Cd*rho*V^2*S`. -/
def calculateParasiticDrag (C_d airDensity speed wingArea : ℝ) : ℝ :=
  (0.5 * C_d * airDensity * speed ^ 2 * wingArea) * M_DRAG_COEFFICIENT

/-- `calculateInducedDrag` (physics.c): zero below `0.1 m/s`, also scaled by the arcade factor. -/
def calculateInducedDrag (liftCoefficient aspRat airDensity wingArea speed : ℝ) : ℝ :=
  if speed < 0.1 then 0
  else (0.5 * airDensity * speed ^ 2 * wingArea *
    ((liftCoefficient * liftCoefficient) / (PI * aspRat * OEF))) * M_DRAG_COEFFICIENT

/-- `calculateDragDivergenceAroundMach` (physics.c): wave drag `C_D0*kw*(M-Md)^2`
when `M > Md`, scaled by the arcade factor. -/
def calculateDragDivergenceAroundMach (speed : ℝ) (physicsData : PhysicsData)
    (kw Md : ℝ) : ℝ :=
  let mach := speed / physicsData.speedOfSound
  let Cdw := if mach > Md then C_D0 * kw * (mach - Md) ^ 2 else 0
  Cdw * M_DRAG_COEFFICIENT

/- ## Thrust -/

/-- `calculateThrust` (physics.c lines 561-608): selects the afterburner rating
when `percentControl > 100` (then clamps the control to 100), derates by the
density ratio, scales by the control fraction, applies the ram-recovery factor
`1 + 0.3*Mach`, and finally caps the result at the selected rating. -/
def calculateThrust (thrust afterburnerThrust percentControl : ℤ)
    (physicsData : PhysicsData) : ℝ :=
  let afterBurnerOn := percentControl > 100
  let percentControlClamped : ℤ := if afterBurnerOn then 100 else percentControl
  let usedThrust : ℤ := if afterBurnerOn then afterburnerThrust else thrust
  let airDensityAtCurrentAltitude := physicsData.airDensity
  let derateFactor := airDensityAtCurrentAltitude / airDensityAtSeaLevel
  if airDensityAtSeaLevel < 1e-6 then 0
  else
    let calculatedThrust := (usedThrust : ℝ) * derateFactor
    let controlledThrust := ((percentControlClamped : ℝ) / 100) * calculatedThrust
    let mach := physicsData.machNumber
    let ramRecoveryFactor : ℝ := 0.3
    let speedModifiedThrust := controlledThrust * (1 + ramRecoveryFactor * mach)
    if speedModifiedThrust > (usedThrust : ℝ) then (usedThrust : ℝ) else speedModifiedThrust

/- ## TAS, conversions -/

/-- `calculateTAS` (physics.c): `IAS / sqrt(rho/rho0)`. -/
def calculateTAS (physicsData : PhysicsData) : ℝ :=
  physicsData.velocityMagnitude / Real.sqrt (physicsData.airDensity / airDensityAtSeaLevel)

/-- `convertRadiansToDeg` (physics.c), using the code's `PI` literal. -/
def convertRadiansToDeg (radians : ℝ) : ℝ :=
  radians * (180.0 / PI)

/-- `convertKmhToMs` (physics.c). -/
def convertKmhToMs (kmh : ℝ) : ℝ :=
  kmh / 3.6

/-- `convertMsToMach` (physics.c). -/
def convertMsToMach (ms : ℝ) (physicsData : PhysicsData) : ℝ :=
  ms / physicsData.speedOfSound

/-- `getWindVector` (weather.c): eastward base wind growing with altitude plus
sinusoidal turbulence in x and z. -/
def getWindVector (altitude time : ℝ) : Vector3 :=
  ⟨BASE_WIND_SPEED + ALTITUDE_FACTOR * altitude +
     TURBULENCE_AMPLITUDE * Real.sin (TURBULENCE_FREQUENCY * time),
   0,
   TURBULENCE_AMPLITUDE * Real.cos (TURBULENCE_FREQUENCY * time)⟩

/- ## Fuel and mass -/

/-- `getFuelBurnRate` (physics.c): the fixed afterburner rate when
`throttle > 1`, otherwise the normal rate scaled linearly by the throttle;
negative configured rates are rejected with a `0` sentinel. -/
def getFuelBurnRate (data : AircraftData) (throttle : ℝ) : ℝ :=
  if throttle > 1 then
    (if data.afterburnerFuelBurn < 0 then 0 else data.afterburnerFuelBurn)
  else
    (if data.fuelBurn < 0 then 0 else data.fuelBurn * throttle)

/-- `updateFuelLevel` (physics.c lines 855-867): subtracts `rate*deltaTime` from
the fuel pointed to and clamps at zero; modelled as returning the new level. -/
def updateFuelLevel (fuelKg deltaTime fuelBurnRate : ℝ) : ℝ :=
  let newFuel := fuelKg - fuelBurnRate * deltaTime
  if newFuel < 0 then 0 else newFuel

/-- `updateAircraftMass` (physics.c lines 869-882): subtracts the burned fuel
mass and floors the result at the empty mass `data.mass`. -/
def updateAircraftMass (aircraft : AircraftState) (data : AircraftData)
    (fuelBurnRate deltaTime : ℝ) : AircraftState :=
  let fuelBurned := fuelBurnRate * deltaTime
  let newMass := aircraft.currentMass - fuelBurned
  { aircraft with currentMass := if newMass < data.mass then data.mass else newMass }

/- ## updateVelocity -/

/-- `updateVelocity` (physics.c lines 641-666): Euler-advances `vx` by
`(thrust - drag)/mass` and `vy` by `(lift - weight)/mass`; `vz` is untouched. -/
def updateVelocity (aircraft : AircraftState) (deltaTime : ℝ) (data : AircraftData)
    (physicsData : PhysicsData) : AircraftState :=
  let T := physicsData.thrust
  let D := physicsData.totalDrag
  let ax := (T - D) / data.mass
  let L := calculateLift data.wingArea physicsData
  let W := GRAVITY * data.mass
  let ay := (L - W) / data.mass
  { aircraft with vx := aircraft.vx + ax * deltaTime, vy := aircraft.vy + ay * deltaTime }

/- ## Frame cache update -/

/-- C cast `(int)x` of a float to int: truncation toward zero. -/
def truncToInt (x : ℝ) : ℤ :=
  if 0 ≤ x then ⌊x⌋ else ⌈x⌉

/-- `updatePhysicsData` (physics.c lines 892-949): recomputes every derived field
in the fixed dependency order and stamps `lastSimulationTime`.  The drag globals
`alpha`, `kw`, `Md` come from the aircraft's data (as set by `fillConstants`). -/
def updatePhysicsData (physics : PhysicsData) (altitude : ℝ) (aircraft : AircraftState)
    (data : AircraftData) (simulationTime : ℝ) : PhysicsData :=
  -- 1. Atmosphere
  let tropopauseV := getTropopause
  let temperatureV := getTemperatureKelvin altitude
    { physics with tropopauseAltitude := tropopauseV }
  let airDensityV := getAirDensity altitude
    { physics with
      tropopauseAltitude := tropopauseV, temperatureKelvin := temperatureV }
  let speedOfSoundV := calculateSpeedOfSound altitude
    { physics with
      tropopauseAltitude := tropopauseV, temperatureKelvin := temperatureV,
      airDensity := airDensityV }
  -- 2. Flight parameters
  let velocityMagnitudeV := calculateMagnitude aircraft.vx aircraft.vy aircraft.vz
  let trueAirspeedV := calculateTAS
    { physics with
      tropopauseAltitude := tropopauseV, temperatureKelvin := temperatureV,
      airDensity := airDensityV, speedOfSound := speedOfSoundV,
      velocityMagnitude := velocityMagnitudeV }
  let machNumberV := convertMsToMach trueAirspeedV
    { physics with
      tropopauseAltitude := tropopauseV, temperatureKelvin := temperatureV,
      airDensity := airDensityV, speedOfSound := speedOfSoundV,
      velocityMagnitude := velocityMagnitudeV, trueAirspeed := trueAirspeedV }
  let flightPathAngleV := getFlightPathAngle aircraft
    { physics with
      tropopauseAltitude := tropopauseV, temperatureKelvin := temperatureV,
      airDensity := airDensityV, speedOfSound := speedOfSoundV,
      velocityMagnitude := velocityMagnitudeV, trueAirspeed := trueAirspeedV,
      machNumber := machNumberV }
  let angleOfAttackV := calculateAoA aircraft
  -- 3. Orientation in degrees
  let pitchDegreesV := convertRadiansToDeg aircraft.pitch
  let yawDegreesV := convertRadiansToDeg aircraft.yaw
  let rollDegreesV := convertRadiansToDeg aircraft.roll
  -- 4. Orientation vectors
  let windVectorV := getWindVector altitude simulationTime
  let upVectorV := getUpVector aircraft
  let rightWingDirectionV := getRightWingDirection aircraft
    { physics with
      tropopauseAltitude := tropopauseV, temperatureKelvin := temperatureV,
      airDensity := airDensityV, speedOfSound := speedOfSoundV,
      velocityMagnitude := velocityMagnitudeV, trueAirspeed := trueAirspeedV,
      machNumber := machNumberV, flightPathAngle := flightPathAngleV,
      angleOfAttack := angleOfAttackV, pitchDegrees := pitchDegreesV,
      yawDegrees := yawDegreesV, rollDegrees := rollDegreesV,
      windVector := windVectorV, upVector := upVectorV }
  let liftAxisVectorV := getLiftAxisVector rightWingDirectionV (getUnitVector aircraft
    { physics with
      tropopauseAltitude := tropopauseV, temperatureKelvin := temperatureV,
      airDensity := airDensityV, speedOfSound := speedOfSoundV,
      velocityMagnitude := velocityMagnitudeV, trueAirspeed := trueAirspeedV,
      machNumber := machNumberV, flightPathAngle := flightPathAngleV,
      angleOfAttack := angleOfAttackV, pitchDegrees := pitchDegreesV,
      yawDegrees := yawDegreesV, rollDegrees := rollDegreesV,
      windVector := windVectorV, upVector := upVectorV,
      rightWingDirection := rightWingDirectionV })
  -- 5. Lift
  let liftCoefficientV := calculateLiftCoefficient data.mass aircraft data.wingArea
    { physics with
      tropopauseAltitude := tropopauseV, temperatureKelvin := temperatureV,
      airDensity := airDensityV, speedOfSound := speedOfSoundV,
      velocityMagnitude := velocityMagnitudeV, trueAirspeed := trueAirspeedV,
      machNumber := machNumberV, flightPathAngle := flightPathAngleV,
      angleOfAttack := angleOfAttackV, pitchDegrees := pitchDegreesV,
      yawDegrees := yawDegreesV, rollDegrees := rollDegreesV,
      windVector := windVectorV, upVector := upVectorV,
      rightWingDirection := rightWingDirectionV, liftAxisVector := liftAxisVectorV }
  let aspectRatioV := calculateAspectRatio data.wingSpan data.wingArea
  let liftForceV := computeLiftForceComponents aircraft data.wingArea liftCoefficientV
    { physics with
      tropopauseAltitude := tropopauseV, temperatureKelvin := temperatureV,
      airDensity := airDensityV, speedOfSound := speedOfSoundV,
      velocityMagnitude := velocityMagnitudeV, trueAirspeed := trueAirspeedV,
      machNumber := machNumberV, flightPathAngle := flightPathAngleV,
      angleOfAttack := angleOfAttackV, pitchDegrees := pitchDegreesV,
      yawDegrees := yawDegreesV, rollDegrees := rollDegreesV,
      windVector := windVectorV, upVector := upVectorV,
      rightWingDirection := rightWingDirectionV, liftAxisVector := liftAxisVectorV,
      liftCoefficient := liftCoefficientV, aspectRatio := aspectRatioV }
  -- 6. Drag
  let maxSpeedMs := convertKmhToMs data.maxSpeed
  let dragCoefficientV := calculateDragCoefficient trueAirspeedV maxSpeedMs C_D0
    { physics with
      tropopauseAltitude := tropopauseV, temperatureKelvin := temperatureV,
      airDensity := airDensityV, speedOfSound := speedOfSoundV,
      velocityMagnitude := velocityMagnitudeV, trueAirspeed := trueAirspeedV,
      machNumber := machNumberV, flightPathAngle := flightPathAngleV,
      angleOfAttack := angleOfAttackV, pitchDegrees := pitchDegreesV,
      yawDegrees := yawDegreesV, rollDegrees := rollDegreesV,
      windVector := windVectorV, upVector := upVectorV,
      rightWingDirection := rightWingDirectionV, liftAxisVector := liftAxisVectorV,
      liftCoefficient := liftCoefficientV, aspectRatio := aspectRatioV,
      liftForce := liftForceV }
    data.alpha data.kw data.Md
  let parasiticDragV := calculateParasiticDrag dragCoefficientV airDensityV trueAirspeedV
    data.wingArea
  let inducedDragV := calculateInducedDrag liftCoefficientV aspectRatioV airDensityV
    data.wingArea trueAirspeedV
  let dragDivergenceV := calculateDragDivergenceAroundMach trueAirspeedV
    { physics with
      tropopauseAltitude := tropopauseV, temperatureKelvin := temperatureV,
      airDensity := airDensityV, speedOfSound := speedOfSoundV,
      velocityMagnitude := velocityMagnitudeV, trueAirspeed := trueAirspeedV,
      machNumber := machNumberV, flightPathAngle := flightPathAngleV,
      angleOfAttack := angleOfAttackV, pitchDegrees := pitchDegreesV,
      yawDegrees := yawDegreesV, rollDegrees := rollDegreesV,
      windVector := windVectorV, upVector := upVectorV,
      rightWingDirection := rightWingDirectionV, liftAxisVector := liftAxisVectorV,
      liftCoefficient := liftCoefficientV, aspectRatio := aspectRatioV,
      liftForce := liftForceV, dragCoefficient := dragCoefficientV,
      parasiticDrag := parasiticDragV, inducedDrag := inducedDragV }
    data.kw data.Md
  let totalDragV := parasiticDragV + inducedDragV + dragDivergenceV
  -- 7. Engine thrust
  let thrustV := calculateThrust data.thrust data.afterburnerThrust
    (truncToInt (aircraft.controls.throttle * 100))
    { physics with
      tropopauseAltitude := tropopauseV, temperatureKelvin := temperatureV,
      airDensity := airDensityV, speedOfSound := speedOfSoundV,
      velocityMagnitude := velocityMagnitudeV, trueAirspeed := trueAirspeedV,
      machNumber := machNumberV, flightPathAngle := flightPathAngleV,
      angleOfAttack := angleOfAttackV, pitchDegrees := pitchDegreesV,
      yawDegrees := yawDegreesV, rollDegrees := rollDegreesV,
      windVector := windVectorV, upVector := upVectorV,
      rightWingDirection := rightWingDirectionV, liftAxisVector := liftAxisVectorV,
      liftCoefficient := liftCoefficientV, aspectRatio := aspectRatioV,
      liftForce := liftForceV, dragCoefficient := dragCoefficientV,
      parasiticDrag := parasiticDragV, inducedDrag := inducedDragV,
      dragDivergence := dragDivergenceV, totalDrag := totalDragV }
  -- 8. Drag force placeholder and timestamp
  { physics with
    tropopauseAltitude := tropopauseV, temperatureKelvin := temperatureV,
    airDensity := airDensityV, speedOfSound := speedOfSoundV,
    velocityMagnitude := velocityMagnitudeV, trueAirspeed := trueAirspeedV,
    machNumber := machNumberV, flightPathAngle := flightPathAngleV,
    angleOfAttack := angleOfAttackV, pitchDegrees := pitchDegreesV,
    yawDegrees := yawDegreesV, rollDegrees := rollDegreesV,
    windVector := windVectorV, upVector := upVectorV,
    rightWingDirection := rightWingDirectionV, liftAxisVector := liftAxisVectorV,
    liftCoefficient := liftCoefficientV, aspectRatio := aspectRatioV,
    liftForce := liftForceV, dragCoefficient := dragCoefficientV,
    parasiticDrag := parasiticDragV, inducedDrag := inducedDragV,
    dragDivergence := dragDivergenceV, totalDrag := totalDragV,
    thrust := thrustV, dragForce := (⟨0, 0, 0⟩ : Vector3),
    lastSimulationTime := simulationTime }

/- ## Acceleration and RK4 integration -/

/-- `computeAcceleration` (physics.c lines 951-1011): acceleration
`(gravity + lift + drag + thrust) / mass`.  The drag direction is the current
velocity direction negated (zero-guarded); the thrust vector is zeroed when the
fuel is exhausted, in which case the code also writes `globalPhysicsData.thrust = 0`
(every caller passes the global cache as `physicsData`, so that write is modelled
as the second component of the result). -/
def computeAcceleration (velocity : Vector3) (aircraft : AircraftState)
    (aircraftData : AircraftData) (physicsData : PhysicsData) : Vector3 × PhysicsData :=
  let mass := aircraftData.mass
  let gravityForce : Vector3 := ⟨0, -GRAVITY * mass, 0⟩
  let liftForce := physicsData.liftForce
  let relativeSpeed := Real.sqrt (velocity.x * velocity.x + velocity.y * velocity.y +
    velocity.z * velocity.z)
  let relativeVelocity := velocity
  let totalDrag := physicsData.totalDrag
  let dragForce : Vector3 :=
    if relativeSpeed < 0.0001 then ⟨0, 0, 0⟩
    else ⟨-totalDrag * (relativeVelocity.x / relativeSpeed),
          -totalDrag * (relativeVelocity.y / relativeSpeed),
          -totalDrag * (relativeVelocity.z / relativeSpeed)⟩
  let thrustMagnitude := physicsData.thrust
  let thrustForce : Vector3 :=
    if aircraft.fuel ≤ 0 then ⟨0, 0, 0⟩
    else ⟨thrustMagnitude * Real.cos aircraft.pitch * Real.cos aircraft.yaw,
          thrustMagnitude * Real.sin aircraft.pitch,
          thrustMagnitude * Real.cos aircraft.pitch * Real.sin aircraft.yaw⟩
  let physicsOut := if aircraft.fuel ≤ 0 then { physicsData with thrust := 0 } else physicsData
  let netForce : Vector3 :=
    ⟨gravityForce.x + liftForce.x + dragForce.x + thrustForce.x,
     gravityForce.y + liftForce.y + dragForce.y + thrustForce.y,
     gravityForce.z + liftForce.z + dragForce.z + thrustForce.z⟩
  (⟨netForce.x / mass, netForce.y / mass, netForce.z / mass⟩, physicsOut)

/-- The four-stage RK4 velocity update of `updatePhysics` (physics.c lines
1020-1054): stages `k1..k4`, scratch copies advanced by partial steps and passed
through `updateVelocity`, then the weighted sum added to the velocity.  The
frame cache is threaded because `computeAcceleration` can write back a zero
thrust on flameout. -/
def rk4Step (aircraft : AircraftState) (deltaTime : ℝ) (aircraftData : AircraftData)
    (phys : PhysicsData) : AircraftState × PhysicsData :=
  let v0 : Vector3 := ⟨aircraft.vx, aircraft.vy, aircraft.vz⟩
  let r1 := computeAcceleration v0 aircraft aircraftData phys
  let k1 := r1.1
  let phys1 := r1.2
  let temp2 := { aircraft with
    vx := v0.x + 0.5 * k1.x * deltaTime,
    vy := v0.y + 0.5 * k1.y * deltaTime,
    vz := v0.z + 0.5 * k1.z * deltaTime }
  let temp2u := updateVelocity temp2 (deltaTime * 0.5) aircraftData phys1
  let r2 := computeAcceleration ⟨temp2u.vx, temp2u.vy, temp2u.vz⟩ temp2u aircraftData phys1
  let k2 := r2.1
  let phys2 := r2.2
  let temp3 := { aircraft with
    vx := v0.x + 0.5 * k2.x * deltaTime,
    vy := v0.y + 0.5 * k2.y * deltaTime,
    vz := v0.z + 0.5 * k2.z * deltaTime }
  let temp3u := updateVelocity temp3 (deltaTime * 0.5) aircraftData phys2
  let r3 := computeAcceleration ⟨temp3u.vx, temp3u.vy, temp3u.vz⟩ temp3u aircraftData phys2
  let k3 := r3.1
  let phys3 := r3.2
  let temp4 := { aircraft with
    vx := v0.x + k3.x * deltaTime,
    vy := v0.y + k3.y * deltaTime,
    vz := v0.z + k3.z * deltaTime }
  let temp4u := updateVelocity temp4 deltaTime aircraftData phys3
  let r4 := computeAcceleration ⟨temp4u.vx, temp4u.vy, temp4u.vz⟩ temp4u aircraftData phys3
  let k4 := r4.1
  let phys4 := r4.2
  ({ aircraft with
      vx := aircraft.vx + (k1.x + 2 * k2.x + 2 * k3.x + k4.x) * (deltaTime / 6),
      vy := aircraft.vy + (k1.y + 2 * k2.y + 2 * k3.y + k4.y) * (deltaTime / 6),
      vz := aircraft.vz + (k1.z + 2 * k2.z + 2 * k3.z + k4.z) * (deltaTime / 6) }, phys4)

/-- `updatePhysics` (physics.c lines 1013-1063): refreshes the frame cache when
the timestamp moved by more than `1e-6`, performs the RK4 velocity update, applies
`updateVelocity` to the real aircraft, then burns fuel and updates the mass.
Returns the updated aircraft together with the updated global cache. -/
def updatePhysics (aircraft : AircraftState) (deltaTime simulationTime : ℝ)
    (aircraftData : AircraftData) (globalPhys : PhysicsData) : AircraftState × PhysicsData :=
  let phys0 :=
    if |globalPhys.lastSimulationTime - simulationTime| > 1e-6 then
      let pd := updatePhysicsData globalPhys aircraft.y aircraft aircraftData simulationTime
      { pd with lastSimulationTime := simulationTime }
    else globalPhys
  let r := rk4Step aircraft deltaTime aircraftData phys0
  let a1 := r.1
  let phys4 := r.2
  let a2 := updateVelocity a1 deltaTime aircraftData phys4
  let fuelBurnRate := getFuelBurnRate aircraftData a2.controls.throttle
  let a3 := { a2 with fuel := updateFuelLevel a2.fuel deltaTime fuelBurnRate }
  let a4 := updateAircraftMass a3 aircraftData fuelBurnRate deltaTime
  (a4, phys4)

/- ## Pointer-level model for the null-check claims -/

/-- Pointer-level model of `computeAcceleration` for claim C6: `none` models a
NULL pointer.  The C body (physics.c lines 951-1011) contains no `CHECK_PTR`
guard, so every struct pointer is dereferenced unconditionally; a NULL argument
is therefore a crash, modelled as `none`.  A guarded function (one that begins
with `CHECK_PTR`) would instead return `some` of its zero/default sentinel. -/
def computeAccelerationPtr (velocity : Vector3) (aircraft : Option AircraftState)
    (aircraftData : Option AircraftData) (physicsData : Option PhysicsData) :
    Option (Vector3 × PhysicsData) := do
  let a ← aircraft
  let d ← aircraftData
  let p ← physicsData
  pure (computeAcceleration velocity a d p)

/- ## Spec-side definitions (written from the spec's words, for comparison) -/

/-- Spec-side (C7): the air density at an altitude, the temperature being taken
from `getTemperatureKelvin` at the same altitude, exactly the composition used
by steps 1 of `updatePhysicsData`. -/
def airDensityAtAltitude (altitude : ℝ) (phys : PhysicsData) : ℝ :=
  let p1 := { phys with tropopauseAltitude := getTropopause }
  let p2 := { p1 with temperatureKelvin := getTemperatureKelvin altitude p1 }
  getAirDensity altitude p2

/-- Spec-side (C8): the acceleration with the thrust term omitted,
`(gravity + lift + drag) / mass`, following the spec's words. -/
def accelWithoutThrust (velocity : Vector3) (aircraftData : AircraftData)
    (physicsData : PhysicsData) : Vector3 :=
  let mass := aircraftData.mass
  let gravityForce : Vector3 := ⟨0, -GRAVITY * mass, 0⟩
  let liftForce := physicsData.liftForce
  let relativeSpeed := Real.sqrt (velocity.x * velocity.x + velocity.y * velocity.y +
    velocity.z * velocity.z)
  let totalDrag := physicsData.totalDrag
  let dragForce : Vector3 :=
    if relativeSpeed < 0.0001 then ⟨0, 0, 0⟩
    else ⟨-totalDrag * (velocity.x / relativeSpeed),
          -totalDrag * (velocity.y / relativeSpeed),
          -totalDrag * (velocity.z / relativeSpeed)⟩
  ⟨(gravityForce.x + liftForce.x + dragForce.x) / mass,
   (gravityForce.y + liftForce.y + dragForce.y) / mass,
   (gravityForce.z + liftForce.z + dragForce.z) / mass⟩

/-- Spec-side (C1): `k1` is the acceleration at the current velocity. -/
def rk4SpecK1 (aircraft : AircraftState) (aircraftData : AircraftData)
    (phys : PhysicsData) : Vector3 :=
  (computeAcceleration ⟨aircraft.vx, aircraft.vy, aircraft.vz⟩ aircraft aircraftData phys).1

/-- Spec-side (C1): the frame cache after the `k1` evaluation (the flameout
write-back of `computeAcceleration`). -/
def rk4SpecP1 (aircraft : AircraftState) (aircraftData : AircraftData)
    (phys : PhysicsData) : PhysicsData :=
  (computeAcceleration ⟨aircraft.vx, aircraft.vy, aircraft.vz⟩ aircraft aircraftData phys).2

/-- Spec-side (C1): the scratch copy for `k2`: current velocity plus
`0.5*dt*k1`, passed through `updateVelocity` with the half deltaTime. -/
def rk4SpecScratch2 (aircraft : AircraftState) (deltaTime : ℝ)
    (aircraftData : AircraftData) (phys : PhysicsData) : AircraftState :=
  updateVelocity
    { aircraft with
      vx := aircraft.vx + 0.5 * (rk4SpecK1 aircraft aircraftData phys).x * deltaTime,
      vy := aircraft.vy + 0.5 * (rk4SpecK1 aircraft aircraftData phys).y * deltaTime,
      vz := aircraft.vz + 0.5 * (rk4SpecK1 aircraft aircraftData phys).z * deltaTime }
    (deltaTime * 0.5) aircraftData (rk4SpecP1 aircraft aircraftData phys)

/-- Spec-side (C1): `k2` is the acceleration evaluated on the half-step scratch copy. -/
def rk4SpecK2 (aircraft : AircraftState) (deltaTime : ℝ) (aircraftData : AircraftData)
    (phys : PhysicsData) : Vector3 :=
  let s2 := rk4SpecScratch2 aircraft deltaTime aircraftData phys
  (computeAcceleration ⟨s2.vx, s2.vy, s2.vz⟩ s2 aircraftData
    (rk4SpecP1 aircraft aircraftData phys)).1

/-- Spec-side (C1): the frame cache after the `k2` evaluation. -/
def rk4SpecP2 (aircraft : AircraftState) (deltaTime : ℝ) (aircraftData : AircraftData)
    (phys : PhysicsData) : PhysicsData :=
  let s2 := rk4SpecScratch2 aircraft deltaTime aircraftData phys
  (computeAcceleration ⟨s2.vx, s2.vy, s2.vz⟩ s2 aircraftData
    (rk4SpecP1 aircraft aircraftData phys)).2

/-- Spec-side (C1): the scratch copy for `k3`: current velocity plus
`0.5*dt*k2`, passed through `updateVelocity` with the half deltaTime. -/
def rk4SpecScratch3 (aircraft : AircraftState) (deltaTime : ℝ)
    (aircraftData : AircraftData) (phys : PhysicsData) : AircraftState :=
  updateVelocity
    { aircraft with
      vx := aircraft.vx + 0.5 * (rk4SpecK2 aircraft deltaTime aircraftData phys).x * deltaTime,
      vy := aircraft.vy + 0.5 * (rk4SpecK2 aircraft deltaTime aircraftData phys).y * deltaTime,
      vz := aircraft.vz + 0.5 * (rk4SpecK2 aircraft deltaTime aircraftData phys).z * deltaTime }
    (deltaTime * 0.5) aircraftData (rk4SpecP2 aircraft deltaTime aircraftData phys)

/-- Spec-side (C1): `k3` is the acceleration evaluated on the second half-step scratch copy. -/
def rk4SpecK3 (aircraft : AircraftState) (deltaTime : ℝ) (aircraftData : AircraftData)
    (phys : PhysicsData) : Vector3 :=
  let s3 := rk4SpecScratch3 aircraft deltaTime aircraftData phys
  (computeAcceleration ⟨s3.vx, s3.vy, s3.vz⟩ s3 aircraftData
    (rk4SpecP2 aircraft deltaTime aircraftData phys)).1

/-- Spec-side (C1): the frame cache after the `k3` evaluation. -/
def rk4SpecP3 (aircraft : AircraftState) (deltaTime : ℝ) (aircraftData : AircraftData)
    (phys : PhysicsData) : PhysicsData :=
  let s3 := rk4SpecScratch3 aircraft deltaTime aircraftData phys
  (computeAcceleration ⟨s3.vx, s3.vy, s3.vz⟩ s3 aircraftData
    (rk4SpecP2 aircraft deltaTime aircraftData phys)).2

/-- Spec-side (C1): the scratch copy for `k4`: current velocity plus `dt*k3`,
passed through `updateVelocity` with the full deltaTime. -/
def rk4SpecScratch4 (aircraft : AircraftState) (deltaTime : ℝ)
    (aircraftData : AircraftData) (phys : PhysicsData) : AircraftState :=
  updateVelocity
    { aircraft with
      vx := aircraft.vx + (rk4SpecK3 aircraft deltaTime aircraftData phys).x * deltaTime,
      vy := aircraft.vy + (rk4SpecK3 aircraft deltaTime aircraftData phys).y * deltaTime,
      vz := aircraft.vz + (rk4SpecK3 aircraft deltaTime aircraftData phys).z * deltaTime }
    deltaTime aircraftData (rk4SpecP3 aircraft deltaTime aircraftData phys)

/-- Spec-side (C1): `k4` is the acceleration evaluated on the full-step scratch copy. -/
def rk4SpecK4 (aircraft : AircraftState) (deltaTime : ℝ) (aircraftData : AircraftData)
    (phys : PhysicsData) : Vector3 :=
  let s4 := rk4SpecScratch4 aircraft deltaTime aircraftData phys
  (computeAcceleration ⟨s4.vx, s4.vy, s4.vz⟩ s4 aircraftData
    (rk4SpecP3 aircraft deltaTime aircraftData phys)).1

/- ## Concrete states used by witnesses and counterexamples -/

/-- Concrete control inputs. -/
def exControls : AircraftControls :=
  ⟨0.5, false, 0, 0, 0, 0, 0, 0⟩

/-- Concrete aircraft state: level flight at 200 m/s with fuel on board. -/
def exAircraft : AircraftState :=
  { x := 0, y := 1000, z := 0, vx := 200, vy := 0, vz := 0,
    yaw := 0, pitch := 0, roll := 0, AoA := 0, thrust := 0,
    hasAfterburner := false, fuel := 3000, currentMass := 11000,
    controls := exControls }

/-- Concrete aircraft data (fighter-sized values). -/
def exData : AircraftData :=
  { mass := 8000, wingArea := 24.15, wingSpan := 9.13, aspectRatio := 0,
    sweepAngle := 40, thrust := 79000, afterburnerThrust := 129000,
    maxSpeed := 2120, stallSpeed := 240, serviceCeiling := 15240,
    fuelCapacity := 3330, cd0 := 0.02, maxAoA := 25, fuelBurn := 1.2,
    afterburnerFuelBurn := 4.8, alpha := 0.5, kw := 0.3, Md := 1.05 }

/-- Concrete frame cache with all fields zeroed. -/
def exPhys : PhysicsData :=
  { tropopauseAltitude := 0, airDensity := 0, temperatureKelvin := 0,
    speedOfSound := 0, pressure := 0, flightPathAngle := 0,
    liftCoefficient := 0, aspectRatio := 0, dragCoefficient := 0,
    parasiticDrag := 0, inducedDrag := 0, totalDrag := 0, dragDivergence := 0,
    thrust := 0, trueAirspeed := 0, machNumber := 0, angleOfAttack := 0,
    windVector := ⟨0, 0, 0⟩, upVector := ⟨0, 0, 0⟩,
    rightWingDirection := ⟨0, 0, 0⟩, liftAxisVector := ⟨0, 0, 0⟩,
    liftForce := ⟨0, 0, 0⟩, dragForce := ⟨0, 0, 0⟩,
    pitchDegrees := 0, yawDegrees := 0, rollDegrees := 0,
    velocityMagnitude := 0, lastSimulationTime := 0 }

/-- Aircraft state for the C4 counterexample: `vx = 1`, `vy = 1`, `vz = 0`, `pitch = 0`. -/
def aoaState : AircraftState :=
  { exAircraft with vx := 1, vy := 1 }

/-- Aircraft state with the fuel exactly depleted (claim C8). -/
def c8Aircraft : AircraftState :=
  { exAircraft with fuel := 0 }

/-- Frame cache with unit true airspeed (claim C10 witness). -/
def fpaPhys : PhysicsData :=
  { exPhys with trueAirspeed := 1 }

/-- Aircraft climbing faster than its true airspeed (claim C10 witness). -/
def fpaAircraft : AircraftState :=
  { exAircraft with vy := 5 }

/-- A zero velocity vector used at concrete evaluations. -/
def exVelocity : Vector3 := ⟨0, 0, 0⟩

/- ## Theorems -/

/-- Helper for C7: below 11000 m the composed air density reduces to the
tropospheric power-law formula on the linear lapse temperature. -/
theorem airDensityAtAltitude_below (phys : PhysicsData) (a : ℝ) (h : a ≤ 11000) :
    airDensityAtAltitude a phys
      = airDensityAtSeaLevel * ((T0 - 6.5 * a / 1000) / T0) ^ (-(GRAVITY / (Kt * R)) - 1 : ℝ) := by
  have htrop : getTropopause = 11000 := by norm_num [getTropopause]
  simp only [airDensityAtAltitude, getAirDensity, getTemperatureKelvin, htrop]
  rw [if_pos h, if_neg (by push_neg; linarith : ¬ a > (11000 : ℝ))]

/-- C7: with the temperature taken from `getTemperatureKelvin` at the same
altitude, `getAirDensity` is strictly decreasing in altitude on
`[0, tropopause]`. -/
theorem airDensity_strictAnti_below_tropopause (phys : PhysicsData) (a1 a2 : ℝ)
    (h0 : 0 ≤ a1) (h12 : a1 < a2) (h2 : a2 ≤ getTropopause) :
    airDensityAtAltitude a2 phys < airDensityAtAltitude a1 phys := by
  have htrop : getTropopause = 11000 := by norm_num [getTropopause]
  rw [htrop] at h2
  rw [airDensityAtAltitude_below phys a2 h2,
    airDensityAtAltitude_below phys a1 (by linarith)]
  have hT0 : (0 : ℝ) < T0 := by norm_num [T0]
  have hT2 : (0 : ℝ) ≤ T0 - 6.5 * a2 / 1000 := by
    simp only [T0]; linarith
  have hTlt : T0 - 6.5 * a2 / 1000 < T0 - 6.5 * a1 / 1000 := by
    simp only [T0]; linarith
  have hexp : (0 : ℝ) < -(GRAVITY / (Kt * R)) - 1 := by
    norm_num [GRAVITY, Kt, R]
  have hdivlt : (T0 - 6.5 * a2 / 1000) / T0 < (T0 - 6.5 * a1 / 1000) / T0 := by
    gcongr
  have hdiv0 : (0 : ℝ) ≤ (T0 - 6.5 * a2 / 1000) / T0 := div_nonneg hT2 (le_of_lt hT0)
  have hpow := Real.rpow_lt_rpow hdiv0 hdivlt hexp
  have hrho : (0 : ℝ) < airDensityAtSeaLevel := by norm_num [airDensityAtSeaLevel]
  exact mul_lt_mul_of_pos_left hpow hrho

/-- C7 witness: the density at 1000 m is below the density at sea level. -/
theorem airDensity_strictAnti_below_tropopause_witness :
    (0 : ℝ) ≤ 0 ∧ (0 : ℝ) < 1000 ∧ (1000 : ℝ) ≤ getTropopause ∧
      airDensityAtAltitude 1000 exPhys < airDensityAtAltitude 0 exPhys :=
  ⟨le_refl 0, by norm_num, by norm_num [getTropopause],
   airDensity_strictAnti_below_tropopause exPhys 0 1000 (le_refl 0) (by norm_num)
     (by norm_num [getTropopause])⟩

/-- C2: `calculateThrust` never exceeds the rated thrust of the selected engine
mode: at most `afterburnerThrust` when `percentControl > 100`, at most `thrust`
otherwise. -/
theorem calculateThrust_le_rated (thrust afterburnerThrust percentControl : ℤ)
    (physicsData : PhysicsData) :
    calculateThrust thrust afterburnerThrust percentControl physicsData ≤
      (if percentControl > 100 then (afterburnerThrust : ℝ) else (thrust : ℝ)) := by
  simp only [calculateThrust]
  rw [if_neg (by norm_num [airDensityAtSeaLevel])]
  by_cases h : percentControl > 100
  · simp only [if_pos h]
    split_ifs with h2
    · exact le_refl _
    · exact le_of_not_lt h2
  · simp only [if_neg h]
    split_ifs with h2
    · exact le_refl _
    · exact le_of_not_lt h2

/-- C3: one tick of the fuel/mass bookkeeping (`updateFuelLevel` then
`updateAircraftMass`, as called at the end of `updatePhysics`) keeps the fuel
nonnegative and the current mass at or above the empty mass `data.mass`. -/
theorem fuel_mass_invariant (aircraft : AircraftState) (data : AircraftData)
    (deltaTime fuelBurnRate : ℝ) (hfuel : 0 ≤ aircraft.fuel)
    (hmass : data.mass ≤ aircraft.currentMass) (hdt : 0 ≤ deltaTime) :
    0 ≤ (updateAircraftMass
          { aircraft with fuel := updateFuelLevel aircraft.fuel deltaTime fuelBurnRate }
          data fuelBurnRate deltaTime).fuel ∧
    data.mass ≤ (updateAircraftMass
          { aircraft with fuel := updateFuelLevel aircraft.fuel deltaTime fuelBurnRate }
          data fuelBurnRate deltaTime).currentMass := by
  constructor
  · show 0 ≤ updateFuelLevel aircraft.fuel deltaTime fuelBurnRate
    simp only [updateFuelLevel]
    split_ifs with h
    · exact le_refl 0
    · exact le_of_not_lt h
  · simp only [updateAircraftMass]
    split_ifs with h
    · exact le_refl _
    · exact le_of_not_lt h

/-- C3 witness: a concrete tick from 3000 kg of fuel and 11000 kg total mass. -/
theorem fuel_mass_invariant_witness :
    0 ≤ exAircraft.fuel ∧ exData.mass ≤ exAircraft.currentMass ∧ (0 : ℝ) ≤ 1 ∧
      (0 ≤ (updateAircraftMass
              { exAircraft with fuel := updateFuelLevel exAircraft.fuel 1 5 }
              exData 5 1).fuel ∧
       exData.mass ≤ (updateAircraftMass
              { exAircraft with fuel := updateFuelLevel exAircraft.fuel 1 5 }
              exData 5 1).currentMass) :=
  ⟨by norm_num [exAircraft], by norm_num [exAircraft, exData], by norm_num,
   fuel_mass_invariant exAircraft exData 1 5 (by norm_num [exAircraft])
     (by norm_num [exAircraft, exData]) (by norm_num)⟩

/-- C4 counterexample: at `vx = 1`, `vy = 1`, `vz = 0`, `pitch = 0` (so `|vx|`
is above the threshold), `calculateAoA` returns `atan(vz/vx) = 0`, not the
claimed `pitch - atan(vy/vx) = -pi/4`. -/
theorem calculateAoA_claim_cex :
    calculateAoA aoaState ≠ aoaState.pitch - Real.arctan (aoaState.vy / aoaState.vx) := by
  have h1 : calculateAoA aoaState = 0 := by
    simp only [calculateAoA, aoaState, exAircraft]
    norm_num
  have h2 : aoaState.pitch - Real.arctan (aoaState.vy / aoaState.vx) = -(π / 4) := by
    simp only [aoaState, exAircraft]
    norm_num [Real.arctan_one]
  rw [h1, h2]
  have := Real.pi_pos
  intro hcontra
  nlinarith

/-- C4 amended: `calculateAoA` returns `atan(vz/vx)` when `vx ≥ 1e-6`, and for
`vx < 1e-6` falls back to `90` when `vz > 0` and `-90` otherwise (it uses `vz`,
not `vy`, does not subtract from `pitch`, tests the signed `vx`, and the
degenerate fallback is `±90`, not `0`). -/
theorem calculateAoA_code_behavior (a : AircraftState) :
    (1e-6 ≤ a.vx → calculateAoA a = Real.arctan (a.vz / a.vx)) ∧
    (a.vx < 1e-6 → 0 < a.vz → calculateAoA a = 90) ∧
    (a.vx < 1e-6 → a.vz ≤ 0 → calculateAoA a = -90) := by
  refine ⟨fun h => ?_, fun h h2 => ?_, fun h h2 => ?_⟩
  · simp only [calculateAoA]
    rw [if_neg (not_lt.mpr h)]
  · simp only [calculateAoA]
    rw [if_pos h, if_pos h2]
  · simp only [calculateAoA]
    rw [if_pos h, if_neg (not_lt.mpr h2)]

/-- C4 amended witness: the same concrete state, evaluated through the amended
description. -/
theorem calculateAoA_code_behavior_witness :
    calculateAoA aoaState = Real.arctan (aoaState.vz / aoaState.vx) :=
  (calculateAoA_code_behavior aoaState).1 (by norm_num [aoaState, exAircraft])

/-- C5 counterexample: at `Cd = rho = V = S = 1` the code returns `0.4`, not the
claimed `0.5*Cd*rho*V^2*S = 0.5`. -/
theorem calculateParasiticDrag_claim_cex :
    calculateParasiticDrag 1 1 1 1 ≠ 0.5 * 1 * 1 * (1 : ℝ) ^ 2 * 1 := by
  norm_num [calculateParasiticDrag, M_DRAG_COEFFICIENT]

/-- C5 amended: `calculateParasiticDrag` returns `0.5*Cd*rho*V^2*S` scaled by
the arcade factor `M_DRAG_COEFFICIENT = 0.8`, i.e. `0.4*Cd*rho*V^2*S`. -/
theorem calculateParasiticDrag_amended (C_d rho speed S : ℝ) :
    calculateParasiticDrag C_d rho speed S = 0.4 * C_d * rho * speed ^ 2 * S := by
  simp only [calculateParasiticDrag, M_DRAG_COEFFICIENT]
  ring

/-- C6: `computeAcceleration` performs no `CHECK_PTR` guard, so a NULL
`aircraftData` is dereferenced (a crash, `none` in the pointer model) instead of
producing the zero/default sentinel the spec promises. -/
theorem computeAcceleration_null_crash :
    computeAccelerationPtr exVelocity (some exAircraft) none (some exPhys) = none := rfl

/-- C8: when the fuel is exhausted (`fuel ≤ 0`), the thrust contribution in
`computeAcceleration` is the zero vector and the returned acceleration is
`(gravity + lift + drag) / mass`. -/
theorem computeAcceleration_flameout (velocity : Vector3) (aircraft : AircraftState)
    (aircraftData : AircraftData) (physicsData : PhysicsData) (h : aircraft.fuel ≤ 0) :
    (computeAcceleration velocity aircraft aircraftData physicsData).1 =
      accelWithoutThrust velocity aircraftData physicsData := by
  simp only [computeAcceleration, accelWithoutThrust, if_pos h]
  simp [add_zero]

/-- C8 witness: a concrete state with the fuel exactly depleted. -/
theorem computeAcceleration_flameout_witness :
    c8Aircraft.fuel ≤ 0 ∧
      (computeAcceleration exVelocity c8Aircraft exData exPhys).1 =
        accelWithoutThrust exVelocity exData exPhys :=
  ⟨by norm_num [c8Aircraft, exAircraft],
   computeAcceleration_flameout exVelocity c8Aircraft exData exPhys
     (by norm_num [c8Aircraft, exAircraft])⟩

/-- C10: `getFlightPathAngle` clamps `vy/TAS` to `[-1, 1]` before `asin`, so the
result lies in `[-pi/2, pi/2]` even when `|vy|` exceeds the true airspeed. -/
theorem getFlightPathAngle_range (aircraft : AircraftState) (physicsData : PhysicsData)
    (h : 0 < physicsData.trueAirspeed) :
    (-(1 : ℝ) ≤ (if aircraft.vy / physicsData.trueAirspeed > 1 then 1
        else if aircraft.vy / physicsData.trueAirspeed < -1 then -1
        else aircraft.vy / physicsData.trueAirspeed) ∧
      (if aircraft.vy / physicsData.trueAirspeed > 1 then (1 : ℝ)
        else if aircraft.vy / physicsData.trueAirspeed < -1 then -1
        else aircraft.vy / physicsData.trueAirspeed) ≤ 1) ∧
    -(π / 2) ≤ getFlightPathAngle aircraft physicsData ∧
      getFlightPathAngle aircraft physicsData ≤ π / 2 := by
  refine ⟨⟨?_, ?_⟩, ?_, ?_⟩
  · split_ifs with h1 h2
    · norm_num
    · exact le_refl _
    · linarith [not_lt.mp h2]
  · split_ifs with h1 h2
    · exact le_refl _
    · norm_num
    · exact le_of_not_lt h1
  · simp only [getFlightPathAngle]
    exact Real.neg_pi_div_two_le_arcsin _
  · simp only [getFlightPathAngle]
    exact Real.arcsin_le_pi_div_two _

/-- C10 witness: vertical speed 5 against a unit true airspeed. -/
theorem getFlightPathAngle_range_witness :
    0 < fpaPhys.trueAirspeed ∧
      ((-(1 : ℝ) ≤ (if fpaAircraft.vy / fpaPhys.trueAirspeed > 1 then 1
          else if fpaAircraft.vy / fpaPhys.trueAirspeed < -1 then -1
          else fpaAircraft.vy / fpaPhys.trueAirspeed) ∧
        (if fpaAircraft.vy / fpaPhys.trueAirspeed > 1 then (1 : ℝ)
          else if fpaAircraft.vy / fpaPhys.trueAirspeed < -1 then -1
          else fpaAircraft.vy / fpaPhys.trueAirspeed) ≤ 1) ∧
      -(π / 2) ≤ getFlightPathAngle fpaAircraft fpaPhys ∧
        getFlightPathAngle fpaAircraft fpaPhys ≤ π / 2) :=
  ⟨by norm_num [fpaPhys, exPhys],
   getFlightPathAngle_range fpaAircraft fpaPhys (by norm_num [fpaPhys, exPhys])⟩

/-- C1: in the RK4 step of `updatePhysics`, every velocity component is advanced
by exactly `(k1 + 2*k2 + 2*k3 + k4) * (deltaTime/6)`, where `k1` is the
acceleration at the current velocity and `k2`, `k3`, `k4` are the accelerations
evaluated on scratch copies whose velocities are the current velocity plus
`0.5*dt*k1`, `0.5*dt*k2` and `dt*k3` respectively, each scratch copy passed
through `updateVelocity` with the corresponding partial deltaTime before
evaluation (the frame cache at each stage being the one left by the preceding
stage). -/
theorem rk4Step_velocity_combination (aircraft : AircraftState) (deltaTime : ℝ)
    (aircraftData : AircraftData) (phys : PhysicsData) :
    (rk4Step aircraft deltaTime aircraftData phys).1.vx
        = aircraft.vx + ((rk4SpecK1 aircraft aircraftData phys).x
            + 2 * (rk4SpecK2 aircraft deltaTime aircraftData phys).x
            + 2 * (rk4SpecK3 aircraft deltaTime aircraftData phys).x
            + (rk4SpecK4 aircraft deltaTime aircraftData phys).x) * (deltaTime / 6) ∧
    (rk4Step aircraft deltaTime aircraftData phys).1.vy
        = aircraft.vy + ((rk4SpecK1 aircraft aircraftData phys).y
            + 2 * (rk4SpecK2 aircraft deltaTime aircraftData phys).y
            + 2 * (rk4SpecK3 aircraft deltaTime aircraftData phys).y
            + (rk4SpecK4 aircraft deltaTime aircraftData phys).y) * (deltaTime / 6) ∧
    (rk4Step aircraft deltaTime aircraftData phys).1.vz
        = aircraft.vz + ((rk4SpecK1 aircraft aircraftData phys).z
            + 2 * (rk4SpecK2 aircraft deltaTime aircraftData phys).z
            + 2 * (rk4SpecK3 aircraft deltaTime aircraftData phys).z
            + (rk4SpecK4 aircraft deltaTime aircraftData phys).z) * (deltaTime / 6) :=
  ⟨rfl, rfl, rfl⟩

/-- C9: one call to `updatePhysics` leaves the position, the orientation, the
cached AoA and thrust fields, the afterburner flag and the control inputs of the
aircraft unchanged (only the velocity components, the fuel and the current mass
are written). -/
theorem updatePhysics_frame (aircraft : AircraftState) (deltaTime simulationTime : ℝ)
    (aircraftData : AircraftData) (globalPhys : PhysicsData) :
    (updatePhysics aircraft deltaTime simulationTime aircraftData globalPhys).1.x = aircraft.x ∧
    (updatePhysics aircraft deltaTime simulationTime aircraftData globalPhys).1.y = aircraft.y ∧
    (updatePhysics aircraft deltaTime simulationTime aircraftData globalPhys).1.z = aircraft.z ∧
    (updatePhysics aircraft deltaTime simulationTime aircraftData globalPhys).1.yaw = aircraft.yaw ∧
    (updatePhysics aircraft deltaTime simulationTime aircraftData globalPhys).1.pitch = aircraft.pitch ∧
    (updatePhysics aircraft deltaTime simulationTime aircraftData globalPhys).1.roll = aircraft.roll ∧
    (updatePhysics aircraft deltaTime simulationTime aircraftData globalPhys).1.AoA = aircraft.AoA ∧
    (updatePhysics aircraft deltaTime simulationTime aircraftData globalPhys).1.thrust = aircraft.thrust ∧
    (updatePhysics aircraft deltaTime simulationTime aircraftData globalPhys).1.hasAfterburner = aircraft.hasAfterburner ∧
    (updatePhysics aircraft deltaTime simulationTime aircraftData globalPhys).1.controls = aircraft.controls :=
  ⟨rfl, rfl, rfl, rfl, rfl, rfl, rfl, rfl, rfl, rfl⟩

end FlightSim
